import Mathlib

/-!
# Verification of the zpickle container format and codec pipelines

Shallow embedding of `zpickle/core.py`: the one-shot pipeline
(`dumps`/`loads`/`dump`/`load`) and the streaming pipeline
(`dump_streaming`/`load_streaming`), together with the header codec and
configuration store they rely on.

Modelling conventions:
* Bytes are `List Nat`.
* The external object serializer (Python `pickle`) is kept opaque: the
  pipelines are parameterized over `serialize : Obj → Bytes` and
  `deserialize : Bytes → Except String Obj`; "serializable object" means
  `deserialize (serialize o) = .ok o`.
* The external compression service (`compress-utils`) is modelled by a
  concrete invertible codec; its incremental variants buffer their input and
  emit everything at `finish`, which the spec explicitly allows ("the
  compressor may emit zero bytes for a given input chunk").
* File objects are modelled by the byte sequence they carry; reading from a
  stream is explicit prefix consumption, so the stream position at each point
  of the control flow is visible in the embedding.
* Python exceptions become `Except PyError`; `warnings.warn` calls are
  collected in the `warnings` field of a `LoadResult`.
-/

namespace Zpickle

/-- A byte string, modelled as a list of naturals. -/
abbrev Bytes := List Nat

/-- The Python exception classes that the pipelines can surface. -/
inductive PyError where
  /-- `TypeError`, raised by `loads` on non-bytes input. -/
  | typeError (msg : String)
  /-- Format errors raised by strict header decoding. -/
  | formatError (msg : String)
  /-- Errors raised by the external decompression service. -/
  | decompressError (msg : String)
  /-- Errors raised by the external deserializer (`pickle.loads`). -/
  | deserializeError (msg : String)
deriving DecidableEq, Repr

/-! ## Header codec

`zpickle/format.py` is imported by `core.py` but is not part of the source
tree given here, so the header codec is modelled from the spec (§3, §4.1,
§6): an 8-byte header whose bytes 0–4 are a magic/version marker, byte 5 the
algorithm id (0 = none, nonzero = a specific algorithm), byte 6 the level and
byte 7 reserved. -/

/-- Modelled from the spec: magic/version marker occupying bytes 0–4 of the
header (the concrete byte values are an unspecified closed choice, spec §9). -/
def MAGIC : Bytes := [90, 80, 75, 76, 1]

/-- Modelled from the spec: the header is always exactly 8 bytes. -/
def HEADER_SIZE : Nat := 8

/-- Modelled from the spec: the format version pinned by the marker. -/
def FORMAT_VERSION : Nat := 1

/-- Modelled from the spec: the closed enumeration of algorithm names, in
id order; id 0 is "no compression" (spec §3, §9, and the algorithm keywords
of `setup.py`). -/
def ALGORITHMS : List String := ["none", "zstd", "brotli", "zlib", "lzma"]

/-- Modelled from the spec: map an algorithm name to its numeric id
(0 for "none"; names outside the closed enumeration get an out-of-range id). -/
def algorithmId (alg : String) : Nat := ALGORITHMS.indexOf alg

/-- Modelled from the spec: `encode_header(algorithm, level) -> 8 bytes`;
deterministic, magic then algorithm id, level byte, reserved byte. -/
def encode_header (alg : String) (lvl : Int) : Bytes :=
  MAGIC ++ [algorithmId alg, (lvl % 256).toNat, 0]

/-- Modelled from the spec: `is_zpickle_data` is true iff the input is long
enough to be a container and starts with the magic/version marker. -/
def is_zpickle_data (data : Bytes) : Bool :=
  decide (HEADER_SIZE ≤ data.length) && MAGIC.isPrefixOf data

/-- Modelled from the spec: `decode_header(bytes, strict)` validates the
marker and the algorithm id and returns `(version, algorithm, level,
reserved)`. In strict mode unknown markers or algorithm ids are errors; in
non-strict mode best-effort values are returned so the caller can fall back
to the foreign-data path. -/
def decode_header (data : Bytes) (strict : Bool) :
    Except PyError (Nat × String × Nat × Nat) :=
  if is_zpickle_data data then
    let id := data.getD 5 0
    let lvl := data.getD 6 0
    let reserved := data.getD 7 0
    match ALGORITHMS[id]? with
    | some alg => .ok (FORMAT_VERSION, alg, lvl, reserved)
    | none =>
        if strict then .error (.formatError "unknown compression algorithm id")
        else .ok (FORMAT_VERSION, "unknown", lvl, reserved)
  else
    if strict then .error (.formatError "invalid zpickle header")
    else .ok (FORMAT_VERSION, "unknown", 0, 0)

/-! ## External compression service

`compress-utils` is an excluded external collaborator (spec §1); it is
modelled by a concrete invertible codec: the one-shot compressor prefixes the
payload with its length, and decompression validates that length, so corrupt
input is detected. The incremental objects buffer all input and emit the
one-shot encoding at `finish`. -/

/-- The algorithm names the external compression service accepts. -/
def SUPPORTED_COMPRESSION : List String := ["zstd", "brotli", "zlib", "lzma"]

/-- Model of the external one-shot `compress(data, algorithm, level)`. -/
def compress (data : Bytes) (alg : String) (lvl : Int) : Bytes :=
  data.length :: data

/-- Model of the external one-shot `decompress(data, algorithm)`: rejects
unknown algorithms and corrupt payloads. -/
def decompress (data : Bytes) (alg : String) : Except PyError Bytes :=
  if alg ∈ SUPPORTED_COMPRESSION then
    match data with
    | [] => .error (.decompressError "truncated compressed stream")
    | n :: rest =>
        if rest.length = n then .ok rest
        else .error (.decompressError "corrupt compressed stream")
  else .error (.decompressError "unsupported compression algorithm")

/-- Model of the external incremental compressor `CompressStream(alg, lvl)`. -/
structure CompressStream where
  alg : String
  lvl : Int
  buffered : Bytes
deriving DecidableEq, Repr

/-- `CompressStream(alg, lvl)` constructor. -/
def CompressStream.new (alg : String) (lvl : Int) : CompressStream :=
  ⟨alg, lvl, []⟩

/-- `CompressStream.compress(chunk)`: buffers the chunk and emits nothing
(the spec allows a compressor to emit zero bytes for an input chunk). -/
def CompressStream.compress (s : CompressStream) (chunk : Bytes) :
    CompressStream × Bytes :=
  (⟨s.alg, s.lvl, s.buffered ++ chunk⟩, [])

/-- `CompressStream.finish()`: emits the one-shot encoding of everything fed. -/
def CompressStream.finish (s : CompressStream) : Bytes :=
  Zpickle.compress s.buffered s.alg s.lvl

/-- Model of the external incremental decompressor `DecompressStream(alg)`. -/
structure DecompressStream where
  alg : String
  buffered : Bytes
deriving DecidableEq, Repr

/-- `DecompressStream(alg)` constructor. -/
def DecompressStream.new (alg : String) : DecompressStream :=
  ⟨alg, []⟩

/-- `DecompressStream.decompress(chunk)`: buffers the chunk and emits
nothing; all validation happens at `finish`. -/
def DecompressStream.decompress (s : DecompressStream) (chunk : Bytes) :
    DecompressStream × Bytes :=
  (⟨s.alg, s.buffered ++ chunk⟩, [])

/-- `DecompressStream.finish()`: decodes and validates everything fed. -/
def DecompressStream.finish (s : DecompressStream) : Except PyError Bytes :=
  Zpickle.decompress s.buffered s.alg

/-! ## Configuration -/

/-- `zpickle/config.py` is not in the source tree; modelled from the spec
(§3): a record of `{algorithm, level, min_size}`. The pipelines read one
snapshot per call (`get_config()`), modelled by passing the record in. -/
structure ZpickleConfig where
  algorithm : String
  level : Int
  min_size : Nat
deriving DecidableEq, Repr

/-- `alg = algorithm or config.algorithm` (core.py:56): Python `or` falls
back when the explicit argument is falsy, i.e. `None` or the empty string. -/
def resolveAlgorithm (algorithm : Option String) (cfg : ZpickleConfig) : String :=
  match algorithm with
  | none => cfg.algorithm
  | some a => if a = "" then cfg.algorithm else a

/-- `lvl = level or config.level` (core.py:57): Python `or` falls back when
the explicit argument is falsy, i.e. `None` or the integer `0`. -/
def resolveLevel (level : Option Int) (cfg : ZpickleConfig) : Int :=
  match level with
  | none => cfg.level
  | some l => if l = 0 then cfg.level else l

/-! ## Load results and dynamic input -/

/-- The dynamic value handed to `loads` (core.py:104 checks
`isinstance(data, (bytes, bytearray))`). -/
inductive PyInput where
  /-- A `bytes` or `bytearray` object. -/
  | bytesLike (data : Bytes)
  /-- Any other Python object, identified by its type name. -/
  | nonBytes (typename : String)
deriving DecidableEq, Repr

deriving instance DecidableEq for Except

/-- Result of a load pipeline: the returned value or propagated exception,
plus the warnings emitted along the way. -/
structure LoadResult (Obj : Type) where
  result : Except PyError Obj
  warnings : List String
deriving DecidableEq, Repr

/-- The `RuntimeWarning` text emitted by every non-strict fallback. -/
def fallbackWarning : String :=
  "Error processing zpickle data, falling back to regular pickle"

/-! ## Chunked loops

The three `while True: chunk = file.read(chunk_size); if not chunk: break`
loops of `core.py`, with the stream made explicit. Each loop consumes at
least one byte per iteration when `chunk_size > 0`, so a fuel of
`stream.length + 1` is always enough; the fuel only makes the recursion
structural. `stream.take chunk_size = []` is exactly the Python test
`not chunk` (true iff `chunk_size = 0` or the stream is exhausted). -/

/-- The raw copy loop (core.py:320–324 and 406–410): reads `cs`-byte chunks
and appends them to `acc`; returns the accumulator and the unread remainder. -/
def readLoopNone (cs : Nat) : Nat → Bytes → Bytes → Bytes × Bytes
  | 0, stream, acc => (acc, stream)
  | fuel + 1, stream, acc =>
      let chunk := stream.take cs
      if chunk = [] then (acc, stream)
      else readLoopNone cs fuel (stream.drop cs) (acc ++ chunk)

/-- The streaming compression loop (core.py:335–341): feeds `cs`-byte chunks
to the compressor, appending whatever it emits to the output `out`. -/
def writeLoopCompress (cs : Nat) :
    Nat → Bytes → CompressStream → Bytes → CompressStream × Bytes
  | 0, _, s, out => (s, out)
  | fuel + 1, stream, s, out =>
      let chunk := stream.take cs
      if chunk = [] then (s, out)
      else
        let p := s.compress chunk
        writeLoopCompress cs fuel (stream.drop cs) p.1 (out ++ p.2)

/-- The streaming decompression loop (core.py:418–424): feeds `cs`-byte
chunks to the decompressor, appending whatever it emits to `acc`; returns
the decompressor state, the accumulator and the unread remainder. -/
def readLoopDecompress (cs : Nat) :
    Nat → Bytes → DecompressStream → Bytes → DecompressStream × Bytes × Bytes
  | 0, stream, s, acc => (s, acc, stream)
  | fuel + 1, stream, s, acc =>
      let chunk := stream.take cs
      if chunk = [] then (s, acc, stream)
      else
        let p := s.decompress chunk
        readLoopDecompress cs fuel (stream.drop cs) p.1 (acc ++ p.2)

/-! ## The pipelines -/

/-- `dumps` (core.py:22–70): serialize, resolve algorithm/level, bypass
compression for small payloads or algorithm "none", otherwise compress in
one shot; always prefix the header. -/
def dumps {Obj : Type} (serialize : Obj → Bytes) (obj : Obj)
    (algorithm : Option String) (level : Option Int)
    (cfg : ZpickleConfig) : Bytes :=
  let pickled_data := serialize obj
  let alg := resolveAlgorithm algorithm cfg
  let lvl := resolveLevel level cfg
  if pickled_data.length < cfg.min_size ∨ alg = "none" then
    encode_header "none" 0 ++ pickled_data
  else
    encode_header alg lvl ++ compress pickled_data alg lvl

/-- `dump` (core.py:147–182): delegate to `dumps` and write the result to
the file (modelled as appending to the bytes already in the file). -/
def dump {Obj : Type} (serialize : Obj → Bytes) (obj : Obj)
    (algorithm : Option String) (level : Option Int)
    (cfg : ZpickleConfig) (file : Bytes) : Bytes :=
  file ++ dumps serialize obj algorithm level cfg

/-- `loads` (core.py:73–144): type-check the input, detect the container
format, decode the header and decompress; in non-strict mode any error in
that region warns and falls back to deserializing the entire input. -/
def loads {Obj : Type} (deserialize : Bytes → Except String Obj)
    (input : PyInput) (strict : Bool) : LoadResult Obj :=
  match input with
  | .nonBytes typename =>
      ⟨.error (.typeError ("A bytes-like object is required, not " ++ typename)),
       []⟩
  | .bytesLike data =>
      if is_zpickle_data data then
        match decode_header data strict with
        | .error e =>
            if strict then ⟨.error e, []⟩
            else ⟨(deserialize data).mapError .deserializeError,
                  [fallbackWarning]⟩
        | .ok (_, algorithm, _, _) =>
            let compressed_data := data.drop HEADER_SIZE
            if algorithm = "none" then
              ⟨(deserialize compressed_data).mapError .deserializeError, []⟩
            else
              match decompress compressed_data algorithm with
              | .ok pickled_data =>
                  ⟨(deserialize pickled_data).mapError .deserializeError, []⟩
              | .error e =>
                  if strict then ⟨.error e, []⟩
                  else ⟨(deserialize data).mapError .deserializeError,
                        [fallbackWarning]⟩
      else
        ⟨(deserialize data).mapError .deserializeError, []⟩

/-- `load` (core.py:185–258): read 8 header bytes from the stream, detect
the format, read the remainder and decompress. The non-strict fallback
rebuilds its buffer as `header + file.read()`: at a decode error nothing
past the header has been consumed yet, but at a decompression error the
remainder was already consumed, so the second `file.read()` yields nothing. -/
def load {Obj : Type} (deserialize : Bytes → Except String Obj)
    (input : Bytes) (strict : Bool) : LoadResult Obj :=
  let header := input.take HEADER_SIZE
  let rest := input.drop HEADER_SIZE
  if is_zpickle_data header then
    match decode_header header strict with
    | .error e =>
        if strict then ⟨.error e, []⟩
        else ⟨(deserialize (header ++ rest)).mapError .deserializeError,
              [fallbackWarning]⟩
    | .ok (_, algorithm, _, _) =>
        let compressed_data := rest
        if algorithm = "none" then
          ⟨(deserialize compressed_data).mapError .deserializeError, []⟩
        else
          match decompress compressed_data algorithm with
          | .ok pickled_data =>
              ⟨(deserialize pickled_data).mapError .deserializeError, []⟩
          | .error e =>
              if strict then ⟨.error e, []⟩
              else
                ⟨(deserialize (header ++ ([] : Bytes))).mapError
                    .deserializeError,
                 [fallbackWarning]⟩
  else
    ⟨(deserialize (header ++ rest)).mapError .deserializeError, []⟩

/-- `dump_streaming` (core.py:261–346): resolve settings, serialize into an
intermediate buffer, bypass compression for small payloads or "none"
(copying the buffer out in chunks), otherwise feed the buffer chunk by chunk
to an incremental compressor and flush it. Returns the bytes written. -/
def dump_streaming {Obj : Type} (serialize : Obj → Bytes) (obj : Obj)
    (algorithm : Option String) (level : Option Int)
    (cfg : ZpickleConfig) (chunk_size : Nat) : Bytes :=
  let alg := resolveAlgorithm algorithm cfg
  let lvl := resolveLevel level cfg
  let pickled := serialize obj
  if pickled.length < cfg.min_size ∨ alg = "none" then
    (readLoopNone chunk_size (pickled.length + 1) pickled
      (encode_header "none" 0)).1
  else
    let p := writeLoopCompress chunk_size (pickled.length + 1) pickled
      (CompressStream.new alg lvl) (encode_header alg lvl)
    p.2 ++ p.1.finish

/-- `load_streaming` (core.py:349–457): read 8 header bytes; if fewer are
available treat everything as foreign data; otherwise detect the format and
stream-copy or stream-decompress the remainder. The non-strict fallback is
`header + file.read()`, i.e. the header plus whatever the loops have not
consumed at the point of the error. -/
def load_streaming {Obj : Type} (deserialize : Bytes → Except String Obj)
    (input : Bytes) (strict : Bool) (chunk_size : Nat) : LoadResult Obj :=
  let header := input.take HEADER_SIZE
  let rest := input.drop HEADER_SIZE
  if header.length < HEADER_SIZE then
    ⟨(deserialize (header ++ rest)).mapError .deserializeError, []⟩
  else if is_zpickle_data header then
    match decode_header header strict with
    | .error e =>
        if strict then ⟨.error e, []⟩
        else ⟨(deserialize (header ++ rest)).mapError .deserializeError,
              [fallbackWarning]⟩
    | .ok (_, algorithm, _, _) =>
        if algorithm = "none" then
          let p := readLoopNone chunk_size (rest.length + 1) rest []
          ⟨(deserialize p.1).mapError .deserializeError, []⟩
        else
          let p := readLoopDecompress chunk_size (rest.length + 1) rest
            (DecompressStream.new algorithm) []
          match p.1.finish with
          | .ok final_chunk =>
              ⟨(deserialize (p.2.1 ++ final_chunk)).mapError .deserializeError,
               []⟩
          | .error e =>
              if strict then ⟨.error e, []⟩
              else ⟨(deserialize (header ++ p.2.2)).mapError .deserializeError,
                    [fallbackWarning]⟩
  else
    ⟨(deserialize (header ++ rest)).mapError .deserializeError, []⟩

/-! ## Concrete instances of the opaque external serializer, used by
witnesses and counterexamples -/

/-- A concrete serializer instance: tag the payload with a leading byte. -/
def demoSerialize : Bytes → Bytes := fun b => 255 :: b

/-- The inverse of `demoSerialize`; rejects untagged byte strings the way
`pickle.loads` rejects non-pickle data. -/
def demoDeserialize : Bytes → Except String Bytes := fun bs =>
  match bs with
  | 255 :: r => .ok r
  | _ => .error "invalid load key"

/-- A deserializer instance that accepts any byte string and returns it,
used to observe exactly which bytes a pipeline hands to the deserializer. -/
def idDeserialize : Bytes → Except String Bytes := fun bs => .ok bs

/-- A configuration with a threshold large enough to bypass compression of
small demo payloads. -/
def demoCfg : ZpickleConfig := ⟨"zstd", 3, 16⟩

/-- A configuration with threshold 0, so every payload gets compressed. -/
def demoCfg0 : ZpickleConfig := ⟨"zstd", 3, 0⟩

/-- A small demo object (for the serializer `demoSerialize`). -/
def demoObj : Bytes := [7]

/-- A container whose header names a real algorithm but whose compressed
body is corrupt: the model decompressor rejects `[9, 9, 9]` because the
length prefix does not match. -/
def c3Input : Bytes := encode_header "zstd" 3 ++ [9, 9, 9]

/-! ## Header codec lemmas -/

theorem encode_header_cons (a : String) (l : Int) (x : Bytes) :
    encode_header a l ++ x =
      90 :: 80 :: 75 :: 76 :: 1 :: algorithmId a :: (l % 256).toNat :: 0 :: x :=
  rfl

theorem length_encode_header (a : String) (l : Int) :
    (encode_header a l).length = 8 := rfl

theorem take_header (a : String) (l : Int) (x : Bytes) :
    (encode_header a l ++ x).take HEADER_SIZE = encode_header a l := by
  rw [show HEADER_SIZE = (encode_header a l).length from rfl]
  exact List.take_left _ _

theorem drop_header (a : String) (l : Int) (x : Bytes) :
    (encode_header a l ++ x).drop HEADER_SIZE = x := by
  rw [show HEADER_SIZE = (encode_header a l).length from rfl]
  exact List.drop_left _ _

theorem is_zpickle_data_header (a : String) (l : Int) (x : Bytes) :
    is_zpickle_data (encode_header a l ++ x) = true := by
  rw [encode_header_cons]
  simp [is_zpickle_data, MAGIC, HEADER_SIZE, List.isPrefixOf]

theorem mem_ALGORITHMS_iff (a : String) :
    a ∈ ALGORITHMS ↔
      a = "none" ∨ a = "zstd" ∨ a = "brotli" ∨ a = "zlib" ∨ a = "lzma" := by
  simp [ALGORITHMS]

theorem algorithmId_eq_zero_iff (a : String) :
    algorithmId a = 0 ↔ a = "none" := by
  unfold algorithmId ALGORITHMS
  by_cases h : a = "none"
  · subst h; simp
  · rw [List.indexOf_cons_ne _ (fun hc => h hc.symm)]
    simp [h]

theorem getElem_ALGORITHMS_algorithmId (a : String) (ha : a ∈ ALGORITHMS) :
    ALGORITHMS[algorithmId a]? = some a := by
  rcases (mem_ALGORITHMS_iff a).mp ha with h | h | h | h | h <;> subst h <;> rfl

theorem ne_empty_of_mem_ALGORITHMS (a : String) (ha : a ∈ ALGORITHMS) :
    a ≠ "" := by
  rcases (mem_ALGORITHMS_iff a).mp ha with h | h | h | h | h <;> subst h <;> decide

theorem mem_SUPPORTED_COMPRESSION (a : String) (ha : a ∈ ALGORITHMS)
    (hn : a ≠ "none") : a ∈ SUPPORTED_COMPRESSION := by
  rcases (mem_ALGORITHMS_iff a).mp ha with h | h | h | h | h <;> subst h
  · exact absurd rfl hn
  all_goals decide

theorem resolveAlgorithm_some (a : String) (cfg : ZpickleConfig)
    (h : a ≠ "") : resolveAlgorithm (some a) cfg = a := by
  simp [resolveAlgorithm, h]

theorem decode_header_encode (a : String) (l : Int) (x : Bytes)
    (strict : Bool) (ha : a ∈ ALGORITHMS) :
    decode_header (encode_header a l ++ x) strict =
      .ok (FORMAT_VERSION, a, (l % 256).toNat, 0) := by
  unfold decode_header
  rw [is_zpickle_data_header, encode_header_cons]
  simp only [if_true]
  rw [show (90 :: 80 :: 75 :: 76 :: 1 :: algorithmId a :: (l % 256).toNat ::
      0 :: x).getD 5 0 = algorithmId a from rfl]
  rw [show (90 :: 80 :: 75 :: 76 :: 1 :: algorithmId a :: (l % 256).toNat ::
      0 :: x).getD 6 0 = (l % 256).toNat from rfl]
  rw [show (90 :: 80 :: 75 :: 76 :: 1 :: algorithmId a :: (l % 256).toNat ::
      0 :: x).getD 7 0 = 0 from rfl]
  rw [getElem_ALGORITHMS_algorithmId a ha]

theorem is_zpickle_data_header_nil (a : String) (l : Int) :
    is_zpickle_data (encode_header a l) = true := by
  have h := is_zpickle_data_header a l []
  rwa [List.append_nil] at h

theorem decode_header_encode_nil (a : String) (l : Int) (strict : Bool)
    (ha : a ∈ ALGORITHMS) :
    decode_header (encode_header a l) strict =
      .ok (FORMAT_VERSION, a, (l % 256).toNat, 0) := by
  have h := decode_header_encode a l [] strict ha
  rwa [List.append_nil] at h

theorem decompress_compress (d : Bytes) (a : String) (l : Int)
    (ha : a ∈ SUPPORTED_COMPRESSION) :
    decompress (compress d a l) a = .ok d := by
  simp [compress, decompress, ha]

/-! ## Loop characterizations -/

theorem readLoopNone_pos (cs : Nat) (hcs : 0 < cs) :
    ∀ (fuel : Nat) (stream acc : Bytes), stream.length < fuel →
      readLoopNone cs fuel stream acc = (acc ++ stream, []) := by
  intro fuel
  induction fuel with
  | zero => intro stream acc h; omega
  | succ n ih =>
      intro stream acc h
      match stream with
      | [] => simp [readLoopNone]
      | b :: t =>
          rw [readLoopNone]
          have hchunk : (b :: t).take cs ≠ [] := by
            simp [List.take_eq_nil_iff]
            omega
          simp only [if_neg hchunk]
          rw [ih ((b :: t).drop cs) (acc ++ (b :: t).take cs) (by
            simp only [List.length_drop, List.length_cons] at h ⊢
            omega)]
          rw [List.append_assoc, List.take_append_drop]

theorem readLoopNone_zero :
    ∀ (fuel : Nat) (stream acc : Bytes),
      readLoopNone 0 fuel stream acc = (acc, stream) := by
  intro fuel stream acc
  cases fuel with
  | zero => rfl
  | succ n => simp [readLoopNone]

theorem writeLoopCompress_pos (cs : Nat) (hcs : 0 < cs) :
    ∀ (fuel : Nat) (stream : Bytes) (a : String) (l : Int) (b out : Bytes),
      stream.length < fuel →
      writeLoopCompress cs fuel stream ⟨a, l, b⟩ out = (⟨a, l, b ++ stream⟩, out) := by
  intro fuel
  induction fuel with
  | zero => intro stream a l b out h; omega
  | succ n ih =>
      intro stream a l b out h
      match stream with
      | [] => simp [writeLoopCompress]
      | x :: t =>
          rw [writeLoopCompress]
          have hchunk : (x :: t).take cs ≠ [] := by
            simp [List.take_eq_nil_iff]
            omega
          simp only [if_neg hchunk, CompressStream.compress]
          rw [ih ((x :: t).drop cs) a l (b ++ (x :: t).take cs)
            (out ++ []) (by
              simp only [List.length_drop, List.length_cons] at h ⊢
              omega)]
          rw [List.append_assoc, List.take_append_drop, List.append_nil]

theorem readLoopDecompress_pos (cs : Nat) (hcs : 0 < cs) :
    ∀ (fuel : Nat) (stream : Bytes) (a : String) (b acc : Bytes),
      stream.length < fuel →
      readLoopDecompress cs fuel stream ⟨a, b⟩ acc = (⟨a, b ++ stream⟩, acc, []) := by
  intro fuel
  induction fuel with
  | zero => intro stream a b acc h; omega
  | succ n ih =>
      intro stream a b acc h
      match stream with
      | [] => simp [readLoopDecompress]
      | x :: t =>
          rw [readLoopDecompress]
          have hchunk : (x :: t).take cs ≠ [] := by
            simp [List.take_eq_nil_iff]
            omega
          simp only [if_neg hchunk, DecompressStream.decompress]
          rw [ih ((x :: t).drop cs) a (b ++ (x :: t).take cs)
            (acc ++ []) (by
              simp only [List.length_drop, List.length_cons] at h ⊢
              omega)]
          rw [List.append_assoc, List.take_append_drop, List.append_nil]

/-! ## Pipeline characterizations -/

theorem dumps_eq {Obj : Type} (serialize : Obj → Bytes) (obj : Obj)
    (algorithm : Option String) (level : Option Int) (cfg : ZpickleConfig) :
    dumps serialize obj algorithm level cfg =
      if (serialize obj).length < cfg.min_size ∨
          resolveAlgorithm algorithm cfg = "none" then
        encode_header "none" 0 ++ serialize obj
      else
        encode_header (resolveAlgorithm algorithm cfg) (resolveLevel level cfg)
          ++ compress (serialize obj) (resolveAlgorithm algorithm cfg)
              (resolveLevel level cfg) :=
  rfl

/-- In this model the streaming encoder writes byte-for-byte the one-shot
container whenever the chunk size is positive: the raw copy loop reproduces
the buffer, and the incremental compressor emits the one-shot encoding of
everything it was fed. -/
theorem dump_streaming_eq_dumps {Obj : Type} (serialize : Obj → Bytes)
    (obj : Obj) (algorithm : Option String) (level : Option Int)
    (cfg : ZpickleConfig) (cs : Nat) (hcs : 0 < cs) :
    dump_streaming serialize obj algorithm level cfg cs =
      dumps serialize obj algorithm level cfg := by
  unfold dump_streaming dumps
  by_cases h : (serialize obj).length < cfg.min_size ∨
      resolveAlgorithm algorithm cfg = "none"
  · simp only [if_pos h]
    rw [readLoopNone_pos cs hcs _ _ _ (Nat.lt_succ_self _)]
  · simp only [if_neg h]
    rw [show CompressStream.new (resolveAlgorithm algorithm cfg)
        (resolveLevel level cfg) =
        ⟨resolveAlgorithm algorithm cfg, resolveLevel level cfg, []⟩ from rfl]
    rw [writeLoopCompress_pos cs hcs _ _ _ _ _ _ (Nat.lt_succ_self _)]
    simp [CompressStream.finish]

/-! ## Small facts about Except -/

theorem mapError_ok {e1 e2 a : Type} (f : e1 → e2) (x : a) :
    Except.mapError f (.ok x) = (.ok x : Except e2 a) := rfl

theorem mapError_error {e1 e2 a : Type} (f : e1 → e2) (x : e1) :
    (Except.mapError f (.error x) : Except e2 a) = .error (f x) := rfl

/-! ## Decoder characterizations on container input -/

theorem loads_container {Obj : Type} (deserialize : Bytes → Except String Obj)
    (a : String) (l : Int) (P : Bytes) (strict : Bool) (ha : a ∈ ALGORITHMS) :
    loads deserialize (.bytesLike (encode_header a l ++ P)) strict =
      if a = "none" then
        ⟨(deserialize P).mapError .deserializeError, []⟩
      else
        match decompress P a with
        | .ok d => ⟨(deserialize d).mapError .deserializeError, []⟩
        | .error e =>
            if strict then ⟨.error e, []⟩
            else ⟨(deserialize (encode_header a l ++ P)).mapError
                    .deserializeError, [fallbackWarning]⟩ := by
  simp only [loads]
  rw [is_zpickle_data_header, decode_header_encode a l P strict ha]
  simp only [if_true, drop_header]

theorem load_container {Obj : Type} (deserialize : Bytes → Except String Obj)
    (a : String) (l : Int) (P : Bytes) (strict : Bool) (ha : a ∈ ALGORITHMS) :
    load deserialize (encode_header a l ++ P) strict =
      if a = "none" then
        ⟨(deserialize P).mapError .deserializeError, []⟩
      else
        match decompress P a with
        | .ok d => ⟨(deserialize d).mapError .deserializeError, []⟩
        | .error e =>
            if strict then ⟨.error e, []⟩
            else ⟨(deserialize (encode_header a l)).mapError
                    .deserializeError, [fallbackWarning]⟩ := by
  simp only [load]
  rw [take_header, drop_header, is_zpickle_data_header_nil,
    decode_header_encode_nil a l strict ha]
  simp only [if_true, List.append_nil]

theorem load_streaming_container {Obj : Type}
    (deserialize : Bytes → Except String Obj) (a : String) (l : Int)
    (P : Bytes) (strict : Bool) (cs : Nat) (ha : a ∈ ALGORITHMS)
    (hcs : 0 < cs) :
    load_streaming deserialize (encode_header a l ++ P) strict cs =
      if a = "none" then
        ⟨(deserialize P).mapError .deserializeError, []⟩
      else
        match decompress P a with
        | .ok d => ⟨(deserialize d).mapError .deserializeError, []⟩
        | .error e =>
            if strict then ⟨.error e, []⟩
            else ⟨(deserialize (encode_header a l)).mapError
                    .deserializeError, [fallbackWarning]⟩ := by
  simp only [load_streaming]
  rw [take_header, drop_header]
  rw [if_neg (show ¬ (encode_header a l).length < HEADER_SIZE by
    rw [length_encode_header]; exact lt_irrefl 8)]
  rw [is_zpickle_data_header_nil, decode_header_encode_nil a l strict ha]
  simp only [if_true, List.append_nil]
  by_cases hn : a = "none"
  · simp only [if_pos hn]
    rw [readLoopNone_pos cs hcs _ _ _ (Nat.lt_succ_self _)]
    simp
  · simp only [if_neg hn]
    rw [show DecompressStream.new a = ⟨a, []⟩ from rfl]
    rw [readLoopDecompress_pos cs hcs _ _ _ _ _ (Nat.lt_succ_self _)]
    simp only [DecompressStream.finish, List.nil_append]
    match hd : decompress P a with
    | .ok d => simp
    | .error e => simp

/-! ## Decoder characterizations on foreign input -/

theorem is_zpickle_data_take (d : Bytes) :
    is_zpickle_data (d.take HEADER_SIZE) = is_zpickle_data d := by
  unfold is_zpickle_data
  have h1 : decide (HEADER_SIZE ≤ (d.take HEADER_SIZE).length) =
      decide (HEADER_SIZE ≤ d.length) := by
    rw [decide_eq_decide]
    simp only [List.length_take]
    omega
  have h2 : MAGIC.isPrefixOf (d.take HEADER_SIZE) = MAGIC.isPrefixOf d := by
    rw [show (MAGIC.isPrefixOf (d.take HEADER_SIZE) = MAGIC.isPrefixOf d) ↔
        (MAGIC.isPrefixOf (d.take HEADER_SIZE) = true ↔
          MAGIC.isPrefixOf d = true) from by
      constructor
      · intro h; rw [h]
      · intro h
        cases hb : MAGIC.isPrefixOf d with
        | true => rw [h.mpr hb]
        | false =>
            cases hb2 : MAGIC.isPrefixOf (d.take HEADER_SIZE) with
            | true => rw [← hb, h.mp hb2]
            | false => rfl]
    rw [ List.isPrefixOf_iff_prefix, List.isPrefixOf_iff_prefix]
    rw [ List.prefix_iff_eq_take, List.prefix_iff_eq_take]
    rw [show MAGIC.length = 5 from rfl, List.take_take]
    rw [show min 5 HEADER_SIZE = 5 from rfl]
  rw [h1, h2]

theorem loads_foreign {Obj : Type} (deserialize : Bytes → Except String Obj)
    (data : Bytes) (strict : Bool) (h : is_zpickle_data data = false) :
    loads deserialize (.bytesLike data) strict =
      ⟨(deserialize data).mapError .deserializeError, []⟩ := by
  simp only [loads]
  rw [h]
  simp

theorem load_foreign {Obj : Type} (deserialize : Bytes → Except String Obj)
    (data : Bytes) (strict : Bool) (h : is_zpickle_data data = false) :
    load deserialize data strict =
      ⟨(deserialize data).mapError .deserializeError, []⟩ := by
  simp only [load]
  rw [is_zpickle_data_take, h]
  simp [List.take_append_drop]

theorem load_streaming_foreign {Obj : Type}
    (deserialize : Bytes → Except String Obj) (data : Bytes) (strict : Bool)
    (cs : Nat) (h : is_zpickle_data data = false) :
    load_streaming deserialize data strict cs =
      ⟨(deserialize data).mapError .deserializeError, []⟩ := by
  simp only [load_streaming]
  rw [is_zpickle_data_take, h]
  by_cases hlen : (data.take HEADER_SIZE).length < HEADER_SIZE
  · simp only [if_pos hlen]
    rw [List.take_append_drop]
  · simp only [if_neg hlen]
    simp [List.take_append_drop]

/-! ## Round-trip lemmas -/

theorem loads_dumps {Obj : Type} (serialize : Obj → Bytes)
    (deserialize : Bytes → Except String Obj) (obj : Obj)
    (algorithm : Option String) (level : Option Int) (cfg : ZpickleConfig)
    (strict : Bool) (hser : deserialize (serialize obj) = .ok obj)
    (ha : resolveAlgorithm algorithm cfg ∈ ALGORITHMS) :
    loads deserialize (.bytesLike (dumps serialize obj algorithm level cfg))
      strict = ⟨.ok obj, []⟩ := by
  rw [dumps_eq]
  by_cases h : (serialize obj).length < cfg.min_size ∨
      resolveAlgorithm algorithm cfg = "none"
  · rw [if_pos h, loads_container deserialize "none" 0 _ strict (by decide)]
    simp [hser, mapError_ok]
  · rw [if_neg h]
    push_neg at h
    rw [loads_container deserialize _ _ _ strict ha, if_neg h.2,
      decompress_compress _ _ _ (mem_SUPPORTED_COMPRESSION _ ha h.2)]
    simp [hser, mapError_ok]

theorem load_dumps {Obj : Type} (serialize : Obj → Bytes)
    (deserialize : Bytes → Except String Obj) (obj : Obj)
    (algorithm : Option String) (level : Option Int) (cfg : ZpickleConfig)
    (strict : Bool) (hser : deserialize (serialize obj) = .ok obj)
    (ha : resolveAlgorithm algorithm cfg ∈ ALGORITHMS) :
    load deserialize (dumps serialize obj algorithm level cfg) strict =
      ⟨.ok obj, []⟩ := by
  rw [dumps_eq]
  by_cases h : (serialize obj).length < cfg.min_size ∨
      resolveAlgorithm algorithm cfg = "none"
  · rw [if_pos h, load_container deserialize "none" 0 _ strict (by decide)]
    simp [hser, mapError_ok]
  · rw [if_neg h]
    push_neg at h
    rw [load_container deserialize _ _ _ strict ha, if_neg h.2,
      decompress_compress _ _ _ (mem_SUPPORTED_COMPRESSION _ ha h.2)]
    simp [hser, mapError_ok]

theorem load_streaming_dumps {Obj : Type} (serialize : Obj → Bytes)
    (deserialize : Bytes → Except String Obj) (obj : Obj)
    (algorithm : Option String) (level : Option Int) (cfg : ZpickleConfig)
    (strict : Bool) (cs : Nat) (hcs : 0 < cs)
    (hser : deserialize (serialize obj) = .ok obj)
    (ha : resolveAlgorithm algorithm cfg ∈ ALGORITHMS) :
    load_streaming deserialize (dumps serialize obj algorithm level cfg)
      strict cs = ⟨.ok obj, []⟩ := by
  rw [dumps_eq]
  by_cases h : (serialize obj).length < cfg.min_size ∨
      resolveAlgorithm algorithm cfg = "none"
  · rw [if_pos h,
      load_streaming_container deserialize "none" 0 _ strict cs (by decide) hcs]
    simp [hser, mapError_ok]
  · rw [if_neg h]
    push_neg at h
    rw [load_streaming_container deserialize _ _ _ strict cs ha hcs,
      if_neg h.2,
      decompress_compress _ _ _ (mem_SUPPORTED_COMPRESSION _ ha h.2)]
    simp [hser, mapError_ok]

/-! ## Claim theorems -/

/-- C1: for every serializable object `o`, every supported compression
algorithm `a` and every level `l`, deserializing the container produced by
the one-shot write path returns an object equal to `o`:
`load(dump(o, algorithm=a, level=l)) == o` and likewise
`loads(dumps(o, algorithm=a, level=l)) == o`. -/
theorem c1_one_shot_roundtrip {Obj : Type} (serialize : Obj → Bytes)
    (deserialize : Bytes → Except String Obj) (o : Obj) (a : String)
    (l : Int) (cfg : ZpickleConfig) (strict : Bool)
    (hser : deserialize (serialize o) = .ok o) (ha : a ∈ ALGORITHMS) :
    (loads deserialize
        (.bytesLike (dumps serialize o (some a) (some l) cfg)) strict).result
      = .ok o ∧
    (load deserialize (dump serialize o (some a) (some l) cfg []) strict).result
      = .ok o := by
  have ha2 : resolveAlgorithm (some a) cfg ∈ ALGORITHMS := by
    rw [resolveAlgorithm_some a cfg (ne_empty_of_mem_ALGORITHMS a ha)]
    exact ha
  constructor
  · rw [loads_dumps serialize deserialize o _ _ cfg strict hser ha2]
  · rw [show dump serialize o (some a) (some l) cfg [] =
        dumps serialize o (some a) (some l) cfg by simp [dump]]
    rw [load_dumps serialize deserialize o _ _ cfg strict hser ha2]

theorem c1_one_shot_roundtrip_witness :
    (loads demoDeserialize
        (.bytesLike (dumps demoSerialize demoObj (some "zlib") (some 5)
          demoCfg0)) true).result = .ok demoObj ∧
    (load demoDeserialize
        (dump demoSerialize demoObj (some "zlib") (some 5) demoCfg0 [])
        true).result = .ok demoObj :=
  c1_one_shot_roundtrip demoSerialize demoDeserialize demoObj "zlib" 5
    demoCfg0 true (by decide) (by decide)

/-- C2: a serialized payload shorter than the configured `min_size` makes
both `dumps` and `dump_streaming` emit a container whose byte at offset 5
(the algorithm id) is 0, followed by the uncompressed serialized bytes
verbatim, for every requested algorithm and level; and for both write paths
the bypass decision is equivalent to
`serialized_length < min_size ∨ resolved algorithm = "none"` — a function of
the configuration and the serialized length only, not of the chunk size or
of the write path. -/
theorem c2_small_payload_bypass {Obj : Type} (serialize : Obj → Bytes)
    (o : Obj) (algorithm : Option String) (level : Option Int)
    (cfg : ZpickleConfig) (cs : Nat) (hcs : 0 < cs) :
    ((serialize o).length < cfg.min_size →
      (dumps serialize o algorithm level cfg)[5]? = some 0 ∧
      (dumps serialize o algorithm level cfg).drop HEADER_SIZE = serialize o ∧
      (dump_streaming serialize o algorithm level cfg cs)[5]? = some 0 ∧
      (dump_streaming serialize o algorithm level cfg cs).drop HEADER_SIZE
        = serialize o) ∧
    ((dumps serialize o algorithm level cfg)[5]? = some 0 ↔
      ((serialize o).length < cfg.min_size ∨
        resolveAlgorithm algorithm cfg = "none")) ∧
    ((dump_streaming serialize o algorithm level cfg cs)[5]? = some 0 ↔
      ((serialize o).length < cfg.min_size ∨
        resolveAlgorithm algorithm cfg = "none")) := by
  rw [dump_streaming_eq_dumps serialize o algorithm level cfg cs hcs]
  rw [dumps_eq]
  by_cases h : (serialize o).length < cfg.min_size ∨
      resolveAlgorithm algorithm cfg = "none"
  · rw [if_pos h]
    exact ⟨fun _ => ⟨rfl, drop_header _ _ _, rfl, drop_header _ _ _⟩,
      ⟨fun _ => h, fun _ => rfl⟩, ⟨fun _ => h, fun _ => rfl⟩⟩
  · rw [if_neg h]
    have hiff : (encode_header (resolveAlgorithm algorithm cfg)
          (resolveLevel level cfg) ++
          compress (serialize o) (resolveAlgorithm algorithm cfg)
            (resolveLevel level cfg))[5]? = some 0 ↔
        ((serialize o).length < cfg.min_size ∨
          resolveAlgorithm algorithm cfg = "none") := by
      rw [show (encode_header (resolveAlgorithm algorithm cfg)
          (resolveLevel level cfg) ++
          compress (serialize o) (resolveAlgorithm algorithm cfg)
            (resolveLevel level cfg))[5]? =
          some (algorithmId (resolveAlgorithm algorithm cfg)) from rfl]
      simp only [Option.some_inj]
      rw [algorithmId_eq_zero_iff]
      exact iff_of_false (fun hn => h (Or.inr hn)) h
    exact ⟨fun hsmall => absurd (Or.inl hsmall) h, hiff, hiff⟩

theorem c2_small_payload_bypass_witness :
    (dumps demoSerialize demoObj (some "zlib") (some 5) demoCfg)[5]?
      = some 0 ∧
    (dumps demoSerialize demoObj (some "zlib") (some 5) demoCfg).drop
      HEADER_SIZE = demoSerialize demoObj ∧
    (dump_streaming demoSerialize demoObj (some "zlib") (some 5) demoCfg
      1024)[5]? = some 0 ∧
    (dump_streaming demoSerialize demoObj (some "zlib") (some 5) demoCfg
      1024).drop HEADER_SIZE = demoSerialize demoObj :=
  (c2_small_payload_bypass demoSerialize demoObj (some "zlib") (some 5)
    demoCfg 1024 (by decide)).1 (by decide)

/-- C3: fails on the code. In non-strict mode `loads` does retry
deserialization on the entire original input, but `load` (and
`load_streaming`) rebuild the fallback buffer as `header + file.read()`
after the remainder of the stream was already consumed by the
decompression stage, so the retry sees only the 8 header bytes: with a
deserializer that returns the exact bytes it was handed, `load` returns just
the header while `loads` returns the whole input. -/
theorem c3_fallback_drops_consumed_body :
    (load idDeserialize c3Input false).result = .ok (encode_header "zstd" 3) ∧
    (load idDeserialize c3Input false).warnings = [fallbackWarning] ∧
    (load_streaming idDeserialize c3Input false 1024).result
      = .ok (encode_header "zstd" 3) ∧
    (loads idDeserialize (.bytesLike c3Input) false).result = .ok c3Input ∧
    encode_header "zstd" 3 ≠ c3Input := by
  refine ⟨rfl, rfl, rfl, rfl, ?_⟩
  decide

/-- C4: fails on the code for level 0. `lvl = level or config.level`
treats the explicit argument `0` as falsy, so an explicit level 0 is
discarded and the configured level (here 3) is resolved, written into the
header and passed to the compressor; the output is identical to a call with
the configured level. Explicit algorithms and nonzero levels do shadow the
configuration, and nothing mutates the store. -/
theorem c4_explicit_level_zero_ignored :
    resolveLevel (some 0) demoCfg0 = demoCfg0.level ∧
    demoCfg0.level = 3 ∧
    (dumps demoSerialize demoObj (some "zstd") (some 0) demoCfg0)[6]?
      = some 3 ∧
    dumps demoSerialize demoObj (some "zstd") (some 0) demoCfg0 =
      dumps demoSerialize demoObj (some "zstd") (some 3) demoCfg0 ∧
    (3 : Int) ≠ 0 := by
  refine ⟨rfl, rfl, rfl, rfl, ?_⟩
  decide

/-- C5: for every serializable object and every supported (resolved)
algorithm, the one-shot and streaming decoders agree on both encoders
output: `load(dump(o)) == load_streaming(dump(o))` and
`load_streaming(dump_streaming(o)) == load(dump_streaming(o))`, for every
positive chunk size. -/
theorem c5_cross_mode_equivalence {Obj : Type} (serialize : Obj → Bytes)
    (deserialize : Bytes → Except String Obj) (o : Obj)
    (algorithm : Option String) (level : Option Int) (cfg : ZpickleConfig)
    (strict : Bool) (cs1 cs2 cs3 : Nat)
    (hser : deserialize (serialize o) = .ok o)
    (ha : resolveAlgorithm algorithm cfg ∈ ALGORITHMS)
    (h1 : 0 < cs1) (h2 : 0 < cs2) (h3 : 0 < cs3) :
    (load deserialize (dump serialize o algorithm level cfg [])
        strict).result =
      (load_streaming deserialize (dump serialize o algorithm level cfg [])
        strict cs1).result ∧
    (load_streaming deserialize
        (dump_streaming serialize o algorithm level cfg cs2) strict
        cs3).result =
      (load deserialize (dump_streaming serialize o algorithm level cfg cs2)
        strict).result := by
  rw [show dump serialize o algorithm level cfg [] =
      dumps serialize o algorithm level cfg by simp [dump]]
  rw [dump_streaming_eq_dumps serialize o algorithm level cfg cs2 h2]
  rw [load_dumps serialize deserialize o algorithm level cfg strict hser ha]
  rw [load_streaming_dumps serialize deserialize o algorithm level cfg strict
    cs1 h1 hser ha]
  rw [load_streaming_dumps serialize deserialize o algorithm level cfg strict
    cs3 h3 hser ha]
  exact ⟨rfl, rfl⟩

theorem c5_cross_mode_equivalence_witness :
    (load demoDeserialize
        (dump demoSerialize demoObj (some "zlib") (some 5) demoCfg0 [])
        true).result =
      (load_streaming demoDeserialize
        (dump demoSerialize demoObj (some "zlib") (some 5) demoCfg0 [])
        true 1024).result :=
  (c5_cross_mode_equivalence demoSerialize demoDeserialize demoObj
    (some "zlib") (some 5) demoCfg0 true 1024 4096 65536 (by decide)
    (by decide) (by decide) (by decide) (by decide)).1

/-- C6: for every byte sequence produced by the plain serializer alone — no
container framing, so the detection check on its leading bytes fails — all
three load paths treat the 8 bytes read for detection concatenated with the
remainder of the input as the serialized bytes (the detection bytes are
never discarded) and return the original object unchanged. -/
theorem c6_foreign_data_roundtrip {Obj : Type} (serialize : Obj → Bytes)
    (deserialize : Bytes → Except String Obj) (o : Obj) (strict : Bool)
    (cs : Nat) (hser : deserialize (serialize o) = .ok o)
    (hforeign : is_zpickle_data (serialize o) = false) :
    (loads deserialize (.bytesLike (serialize o)) strict).result = .ok o ∧
    (load deserialize (serialize o) strict).result = .ok o ∧
    (load_streaming deserialize (serialize o) strict cs).result = .ok o := by
  rw [loads_foreign deserialize (serialize o) strict hforeign]
  rw [load_foreign deserialize (serialize o) strict hforeign]
  rw [load_streaming_foreign deserialize (serialize o) strict cs hforeign]
  simp [hser, mapError_ok]

theorem c6_foreign_data_roundtrip_witness :
    (loads demoDeserialize (.bytesLike (demoSerialize demoObj)) true).result
      = .ok demoObj ∧
    (load demoDeserialize (demoSerialize demoObj) true).result = .ok demoObj ∧
    (load_streaming demoDeserialize (demoSerialize demoObj) true 1024).result
      = .ok demoObj :=
  c6_foreign_data_roundtrip demoSerialize demoDeserialize demoObj true 1024
    (by decide) (by decide)

/-- C7: for every input stream holding fewer than 8 bytes in total,
`load_streaming` raises no format error: it deserializes the bytes actually
read concatenated with the (empty) rest of the stream, i.e. exactly the
whole input, and emits no warning; any failure can only come from the
deserializer itself. -/
theorem c7_short_stream_is_foreign {Obj : Type}
    (deserialize : Bytes → Except String Obj) (input : Bytes)
    (strict : Bool) (cs : Nat) (hlen : input.length < HEADER_SIZE) :
    load_streaming deserialize input strict cs =
      ⟨(deserialize input).mapError .deserializeError, []⟩ := by
  simp only [load_streaming]
  rw [List.take_of_length_le (le_of_lt hlen),
    List.drop_eq_nil_of_le (le_of_lt hlen)]
  rw [if_pos hlen, List.append_nil]

theorem c7_short_stream_is_foreign_witness :
    load_streaming idDeserialize [128, 4, 149] true 65536 =
      ⟨(idDeserialize [128, 4, 149]).mapError .deserializeError, []⟩ :=
  c7_short_stream_is_foreign idDeserialize [128, 4, 149] true 65536
    (by decide)

/-- C8 as stated is false at `chunk_size = 0`: Python `file.read(0)` returns
an empty chunk, which every loop treats as end-of-stream, so a write-side
chunk size of 0 emits the header and no payload and the round trip no longer
returns the object, while chunk size 1024 does. -/
theorem c8_chunk_size_zero_counterexample :
    (load_streaming demoDeserialize
        (dump_streaming demoSerialize demoObj (some "zstd") (some 3) demoCfg
          0) true 1024).result ≠
      (load_streaming demoDeserialize
        (dump_streaming demoSerialize demoObj (some "zstd") (some 3) demoCfg
          1024) true 1024).result ∧
    (load_streaming demoDeserialize
        (dump_streaming demoSerialize demoObj (some "zstd") (some 3) demoCfg
          1024) true 1024).result = .ok demoObj := by
  refine ⟨?_, rfl⟩
  decide

/-- C8 amended: for a fixed serializable object, supported (resolved)
algorithm and configuration, the `dump_streaming`/`load_streaming` round
trip returns the original object for every positive chunk size on either
the write side or the read side — in particular the result is the same for
every such choice (1024, 4096, 65536, 262144, ...). -/
theorem c8_chunk_size_independence {Obj : Type} (serialize : Obj → Bytes)
    (deserialize : Bytes → Except String Obj) (o : Obj)
    (algorithm : Option String) (level : Option Int) (cfg : ZpickleConfig)
    (strict : Bool) (cs1 cs2 cs3 cs4 : Nat)
    (hser : deserialize (serialize o) = .ok o)
    (ha : resolveAlgorithm algorithm cfg ∈ ALGORITHMS)
    (h1 : 0 < cs1) (h2 : 0 < cs2) (h3 : 0 < cs3) (h4 : 0 < cs4) :
    (load_streaming deserialize
        (dump_streaming serialize o algorithm level cfg cs1) strict
        cs2).result = .ok o ∧
    (load_streaming deserialize
        (dump_streaming serialize o algorithm level cfg cs3) strict
        cs4).result =
      (load_streaming deserialize
        (dump_streaming serialize o algorithm level cfg cs1) strict
        cs2).result := by
  rw [dump_streaming_eq_dumps serialize o algorithm level cfg cs1 h1]
  rw [dump_streaming_eq_dumps serialize o algorithm level cfg cs3 h3]
  rw [load_streaming_dumps serialize deserialize o algorithm level cfg strict
    cs2 h2 hser ha]
  rw [load_streaming_dumps serialize deserialize o algorithm level cfg strict
    cs4 h4 hser ha]
  exact ⟨rfl, rfl⟩

theorem c8_chunk_size_independence_witness :
    (load_streaming demoDeserialize
        (dump_streaming demoSerialize demoObj (some "zstd") (some 3) demoCfg0
          1024) true 262144).result = .ok demoObj :=
  (c8_chunk_size_independence demoSerialize demoDeserialize demoObj
    (some "zstd") (some 3) demoCfg0 true 1024 262144 4096 65536 (by decide)
    (by decide) (by decide) (by decide) (by decide) (by decide)).1

/-- C9: for every input value that is not a bytes or bytearray object,
`loads` raises a `TypeError` before interpreting the data in any way: the
result is the same for every deserializer and every strict flag, and no
header detection, decompression or deserialization output can appear in
it. -/
theorem c9_loads_type_error {Obj : Type}
    (d1 d2 : Bytes → Except String Obj) (t : String) (s1 s2 : Bool) :
    loads d1 (.nonBytes t) s1 =
      ⟨.error (.typeError ("A bytes-like object is required, not " ++ t)),
       []⟩ ∧
    loads d1 (.nonBytes t) s1 = loads d2 (.nonBytes t) s2 :=
  ⟨rfl, rfl⟩

theorem c9_loads_type_error_witness :
    loads idDeserialize (.nonBytes "int") true =
      ⟨.error (.typeError ("A bytes-like object is required, not " ++ "int")),
       []⟩ :=
  (c9_loads_type_error idDeserialize demoDeserialize "int" true false).1

/-- C10: for every object and every choice of serializer (which absorbs the
protocol options), algorithm and level, `dump(obj, file, ...)` writes to the
file exactly the byte sequence `dumps(obj, ...)` returns for the same
arguments. -/
theorem c10_dump_writes_exactly_dumps {Obj : Type} (serialize : Obj → Bytes)
    (o : Obj) (algorithm : Option String) (level : Option Int)
    (cfg : ZpickleConfig) (file : Bytes) :
    dump serialize o algorithm level cfg file =
      file ++ dumps serialize o algorithm level cfg ∧
    dump serialize o algorithm level cfg [] =
      dumps serialize o algorithm level cfg :=
  ⟨rfl, by simp [dump]⟩

theorem c10_dump_writes_exactly_dumps_witness :
    dump demoSerialize demoObj (some "zstd") (some 3) demoCfg0 [] =
      dumps demoSerialize demoObj (some "zstd") (some 3) demoCfg0 :=
  (c10_dump_writes_exactly_dumps demoSerialize demoObj (some "zstd") (some 3)
    demoCfg0 []).2

end Zpickle
